import Mathlib

/-!
Shallow embedding of `translation_service.py` (class `TranslationService`).

External dependencies (the statistical detector `langdetect.detect`, the
`googletrans` translator, the `googletrans.LANGUAGES` mapping, the OpenAI
chat-completion client, and the caller-injected last-language accessor) are
modelled as components of an environment `Env`.  A call that may raise a
Python exception is modelled as a function into `Except Unit String`:
`Except.ok v` is a normal return, `Except.error ()` is a raised exception.
Membership `code in LANGUAGES` is a pure dictionary lookup that cannot
raise, so it is modelled as a boolean predicate.

The flags `self.use_llm` and `self.openai_client` are set together in
`__init__` (`use_llm` is true exactly when a client was created), so the
guard `not self.use_llm or not self.openai_client` is modelled by the
single boolean `use_llm`.
-/

/-- Behaviour of the external dependencies of `TranslationService`. -/
structure Env where
  /-- `self.use_llm` (and, equivalently, `self.openai_client` being set). -/
  use_llm : Bool
  /-- `code in LANGUAGES` for the googletrans supported-language mapping. -/
  languages : String → Bool
  /-- `langdetect.detect(text)`; may raise. -/
  langdetect : String → Except Unit String
  /-- `self.translator.translate(text, src=s, dest=d).text`; may raise. -/
  google : String → String → String → Except Unit String
  /-- raw content of the LLM reply to the detection prompt built from the
  text (`response.choices[0].message.content`); may raise. -/
  llm_detect_reply : String → Except Unit String
  /-- raw content of the LLM reply to the translation prompt built from
  (text, source_lang, target_lang); may raise. -/
  llm_translate_reply : String → String → String → Except Unit String

/-- Python `try: body except: handler` where the handler itself is the
value of an expression that may in turn raise. -/
def pyTry {α : Type} (body handler : Except Unit α) : Except Unit α :=
  match body with
  | Except.ok v => Except.ok v
  | Except.error _ => handler

/-- Python `str.strip()`: remove leading and trailing whitespace. -/
def pyStrip (s : String) : String :=
  String.mk (((s.data.dropWhile Char.isWhitespace).reverse.dropWhile
    Char.isWhitespace).reverse)

/-- Python `str.lower()`. -/
def pyLower (s : String) : String :=
  String.mk (s.data.map Char.toLower)

/-- The character class of the regex `[\s\-\.\,\(\)\/]+` in
`is_number_only_text`: whitespace, hyphen, period, comma, parentheses,
slash. -/
def removedChar (c : Char) : Bool :=
  c.isWhitespace || c == '-' || c == '.' || c == ',' || c == '(' || c == ')' || c == '/'

/-- `TranslationService.is_number_only_text`:
`clean_text = re.sub(r'[\s\-\.\,\(\)\/]+', '', text)` followed by
`clean_text.isdigit() and len(clean_text) > 0`. -/
def is_number_only_text (text : String) : Bool :=
  let clean_text : List Char := text.data.filter (fun c => ! removedChar c)
  clean_text.all Char.isDigit && decide (clean_text.length > 0)

/-- `TranslationService.fallback_detection`: `langdetect.detect` inside a
`try`, result accepted only if in `LANGUAGES`, default `'en'` otherwise
and on exception. -/
def fallback_detection (env : Env) (text : String) : Except Unit String :=
  pyTry
    ((env.langdetect text).bind fun detected =>
      if env.languages detected then Except.ok detected else Except.ok "en")
    (Except.ok "en")

/-- `TranslationService.detect_language_with_llm`: immediate fallback when
no LLM is configured; otherwise the reply is normalised
(`.strip().lower()`) and accepted only if in `LANGUAGES` or equal to
`'ur'`; invalid replies and call exceptions fall back to
`fallback_detection`. -/
def detect_language_with_llm (env : Env) (text : String) : Except Unit String :=
  if ! env.use_llm then
    fallback_detection env text
  else
    pyTry
      ((env.llm_detect_reply text).bind fun reply =>
        let detected_lang := pyLower (pyStrip reply)
        if env.languages detected_lang || detected_lang == "ur" then
          Except.ok detected_lang
        else
          fallback_detection env text)
      (fallback_detection env text)

/-- `TranslationService.translate_with_google`: the translator call inside
a `try`; on exception the original text is returned. -/
def translate_with_google (env : Env) (text source_lang target_lang : String) :
    Except Unit String :=
  pyTry (env.google text source_lang target_lang) (Except.ok text)

/-- `TranslationService.translate_with_llm`: immediate fallback to
`translate_with_google` when no LLM is configured; otherwise the reply is
stripped, one pair of wrapping double quotes is removed
(`translated[1:-1]`), and any call exception falls back to
`translate_with_google`. -/
def translate_with_llm (env : Env) (text source_lang target_lang : String) :
    Except Unit String :=
  if ! env.use_llm then
    translate_with_google env text source_lang target_lang
  else
    pyTry
      ((env.llm_translate_reply text source_lang target_lang).bind fun reply =>
        let translated := (pyStrip reply).data
        let translated :=
          if translated.head? == some '"' && translated.getLast? == some '"' then
            (translated.drop 1).dropLast
          else translated
        Except.ok (String.mk translated))
      (translate_with_google env text source_lang target_lang)

/-- `TranslationService.translate_to_english`: identity for English
source, identity for number-only text, LLM translator for Urdu when
configured, Google fallback otherwise; the whole body is inside a `try`
whose handler returns the original text. -/
def translate_to_english (env : Env) (text source_lang : String) : Except Unit String :=
  pyTry
    (if source_lang == "en" then Except.ok text
     else if is_number_only_text text then Except.ok text
     else if env.use_llm && source_lang == "ur" then
       translate_with_llm env text source_lang "en"
     else
       translate_with_google env text source_lang "en")
    (Except.ok text)

/-- `TranslationService.translate_from_english`: identity for English
target, LLM translator towards Urdu when configured, Google fallback
otherwise; the whole body is inside a `try` whose handler returns the
original text. -/
def translate_from_english (env : Env) (text target_lang : String) : Except Unit String :=
  pyTry
    (if target_lang == "en" then Except.ok text
     else if env.use_llm && target_lang == "ur" then
       translate_with_llm env text "en" target_lang
     else
       translate_with_google env text "en" target_lang)
    (Except.ok text)

/-- Python truthiness of `sender_id and get_last_language_func`:
`sender_id` is `None` or the empty string, or the accessor is `None`,
makes the conjunction falsy. -/
def ctxTruthy (sender_id : Option String)
    (acc : Option (String → Except Unit String)) : Bool :=
  match sender_id, acc with
  | some sid, some _ => sid != ""
  | _, _ => false

/-- The call `get_last_language_func(sender_id)`; only evaluated by the
source under a `ctxTruthy` guard, so the catch-all branch is arbitrary. -/
def callAcc (sender_id : Option String)
    (acc : Option (String → Except Unit String)) : Except Unit String :=
  match sender_id, acc with
  | some sid, some f => f sid
  | _, _ => Except.error ()

/-- `TranslationService.detect_language_smart`.  `sender_id = none` models
Python `None`, `some ""` is falsy like `None` under `if sender_id and
get_last_language_func`; the accessor is an optional possibly-throwing
function.  The whole body is inside a `try` whose handler returns
`'en'`. -/
def detect_language_smart (env : Env) (text : String)
    (sender_id : Option String)
    (get_last_language_func : Option (String → Except Unit String)) :
    Except Unit String :=
  pyTry
    (if (pyStrip text).length < 3 then
       if ctxTruthy sender_id get_last_language_func then
         (callAcc sender_id get_last_language_func).bind fun last_lang =>
           if last_lang == "en" then Except.ok "en" else Except.ok last_lang
       else Except.ok "en"
     else if is_number_only_text text then
       if ctxTruthy sender_id get_last_language_func then
         (callAcc sender_id get_last_language_func).bind fun last_lang =>
           Except.ok last_lang
       else Except.ok "en"
     else
       (if env.use_llm then detect_language_with_llm env text
        else fallback_detection env text).bind fun detected =>
         if env.languages detected || detected == "ur" then Except.ok detected
         else Except.ok "en")
    (Except.ok "en")

/-- All external dependencies of the environment raise on every call. -/
def throwsAll (env : Env) : Prop :=
  (∀ t, env.langdetect t = Except.error ()) ∧
  (∀ t s d, env.google t s d = Except.error ()) ∧
  (∀ t, env.llm_detect_reply t = Except.error ()) ∧
  (∀ t s d, env.llm_translate_reply t s d = Except.error ())

/-- The injected last-language accessor, when present, raises on every
call. -/
def accRaises : Option (String → Except Unit String) → Prop
  | none => True
  | some f => ∀ s, f s = Except.error ()

/-- Concrete environment: no LLM, the statistical detector always replies
`'fr'`, the translator always replies `'G'`, the supported mapping
contains exactly `'fr'`. -/
def envFr : Env :=
  ⟨false, fun c => c == "fr", fun _ => Except.ok "fr", fun _ _ _ => Except.ok "G",
   fun _ => Except.error (), fun _ _ _ => Except.error ()⟩

/-- Concrete environment in which every external dependency raises on
every call. -/
def envRaise : Env :=
  ⟨true, fun _ => false, fun _ => Except.error (), fun _ _ _ => Except.error (),
   fun _ => Except.error (), fun _ _ _ => Except.error ()⟩

/-- Concrete environment: no LLM, empty supported mapping, detector
replies `'x'`, translator replies `'G'`. -/
def envEmpty : Env :=
  ⟨false, fun _ => false, fun _ => Except.ok "x", fun _ _ _ => Except.ok "G",
   fun _ => Except.error (), fun _ _ _ => Except.error ()⟩

/-- Concrete environment: LLM configured and its detection reply is
`' XX '`, supported mapping contains exactly `'fr'`, statistical detector
replies `'fr'`. -/
def envXX : Env :=
  ⟨true, fun c => c == "fr", fun _ => Except.ok "fr", fun _ _ _ => Except.ok "G",
   fun _ => Except.ok " XX ", fun _ _ _ => Except.ok "T"⟩

section Lemmas

/-- A `try` whose handler produces a normal value never propagates an
exception. -/
theorem pyTry_isOk {α : Type} (body handler : Except Unit α)
    (h : ∃ v, handler = Except.ok v) : ∃ v, pyTry body handler = Except.ok v := by
  cases body with
  | ok w => exact ⟨w, rfl⟩
  | error e => exact h.imp fun v hv => by simp [pyTry, hv]

/-- `fallback_detection` never raises and returns either the default
`'en'` or a code in the supported mapping. -/
theorem fallback_detection_spec (env : Env) (t : String) :
    ∃ v, fallback_detection env t = Except.ok v ∧
      (v = "en" ∨ env.languages v = true) := by
  cases h : env.langdetect t with
  | ok d =>
    cases hl : env.languages d with
    | true =>
      exact ⟨d, by simp [fallback_detection, pyTry, Except.bind, h, hl], Or.inr hl⟩
    | false =>
      exact ⟨"en", by simp [fallback_detection, pyTry, Except.bind, h, hl], Or.inl rfl⟩
  | error e =>
    exact ⟨"en", by simp [fallback_detection, pyTry, Except.bind, h], Or.inl rfl⟩

/-- When the statistical detector raises, `fallback_detection` returns
the default `'en'`. -/
theorem fallback_detection_of_raise (env : Env) (t : String)
    (h : env.langdetect t = Except.error ()) :
    fallback_detection env t = Except.ok "en" := by
  simp [fallback_detection, pyTry, Except.bind, h]

/-- `detect_language_with_llm` never raises. -/
theorem detect_language_with_llm_isOk (env : Env) (t : String) :
    ∃ v, detect_language_with_llm env t = Except.ok v := by
  unfold detect_language_with_llm
  cases hu : env.use_llm with
  | false => exact (fallback_detection_spec env t).imp fun v hv => by simp [hv.1]
  | true =>
    simp only [Bool.not_true, Bool.false_eq_true, if_false, reduceIte]
    apply pyTry_isOk
    exact (fallback_detection_spec env t).imp fun v hv => hv.1

/-- `translate_with_google` never raises. -/
theorem translate_with_google_isOk (env : Env) (t s d : String) :
    ∃ v, translate_with_google env t s d = Except.ok v := by
  unfold translate_with_google
  exact pyTry_isOk _ _ ⟨t, rfl⟩

/-- When the translator dependency raises, `translate_with_google`
returns the original text. -/
theorem translate_with_google_of_raise (env : Env) (t s d : String)
    (h : env.google t s d = Except.error ()) :
    translate_with_google env t s d = Except.ok t := by
  simp [translate_with_google, pyTry, h]

/-- `translate_with_llm` never raises. -/
theorem translate_with_llm_isOk (env : Env) (t s d : String) :
    ∃ v, translate_with_llm env t s d = Except.ok v := by
  unfold translate_with_llm
  cases hu : env.use_llm with
  | false => simpa using translate_with_google_isOk env t s d
  | true =>
    simp only [Bool.not_true, Bool.false_eq_true, if_false, reduceIte]
    exact pyTry_isOk _ _ (translate_with_google_isOk env t s d)

/-- When both the LLM and the translator dependency raise,
`translate_with_llm` returns the original text. -/
theorem translate_with_llm_of_raise (env : Env) (t s d : String)
    (hl : env.llm_translate_reply t s d = Except.error ())
    (hg : env.google t s d = Except.error ()) :
    translate_with_llm env t s d = Except.ok t := by
  unfold translate_with_llm
  cases hu : env.use_llm with
  | false => simpa using translate_with_google_of_raise env t s d hg
  | true =>
    simp [pyTry, Except.bind, hl, translate_with_google_of_raise env t s d hg]

/-- When both the LLM and the statistical detector raise,
`detect_language_with_llm` returns the default `'en'`. -/
theorem detect_language_with_llm_of_raise (env : Env) (t : String)
    (hl : env.llm_detect_reply t = Except.error ())
    (hd : env.langdetect t = Except.error ()) :
    detect_language_with_llm env t = Except.ok "en" := by
  unfold detect_language_with_llm
  cases hu : env.use_llm with
  | false => simpa using fallback_detection_of_raise env t hd
  | true => simp [pyTry, Except.bind, hl, fallback_detection_of_raise env t hd]

/-- A `try` whose body returns normally returns the body's value. -/
theorem pyTry_ok_of {α : Type} (body handler : Except Unit α) (v : α)
    (h : body = Except.ok v) : pyTry body handler = Except.ok v := by
  simp [pyTry, h]

/-- A `try` whose body raises returns the handler's value. -/
theorem pyTry_error_of {α : Type} (body handler : Except Unit α)
    (h : body = Except.error ()) : pyTry body handler = handler := by
  simp [pyTry, h]

/-- Under a truthy context, a raising accessor makes the context call
raise. -/
theorem callAcc_of_raises (sid : Option String)
    (acc : Option (String → Except Unit String))
    (hacc : accRaises acc) (h : ctxTruthy sid acc = true) :
    callAcc sid acc = Except.error () := by
  cases sid with
  | none => cases acc <;> simp [ctxTruthy] at h
  | some s =>
    cases acc with
    | none => simp [ctxTruthy] at h
    | some f =>
      have : f s = Except.error () := hacc s
      simpa [callAcc] using this

end Lemmas

/-- C4: `is_number_only_text t` is true iff, after removing every
whitespace character and every hyphen, period, comma, parenthesis and
slash, the remaining characters are non-empty and all digits; in
particular it is true for "123-456", "(021) 111-222" and
"42501-5440926-9". -/
theorem is_number_only_text_characterization :
    (∀ t : String,
      is_number_only_text t = true ↔
        (t.data.filter (fun c => ! removedChar c) ≠ [] ∧
         ∀ c ∈ t.data.filter (fun c => ! removedChar c), c.isDigit = true)) ∧
    is_number_only_text "123-456" = true ∧
    is_number_only_text "(021) 111-222" = true ∧
    is_number_only_text "42501-5440926-9" = true := by
  refine ⟨fun t => ?_, rfl, rfl, rfl⟩
  unfold is_number_only_text
  simp only [Bool.and_eq_true, List.all_eq_true, decide_eq_true_eq, gt_iff_lt,
    List.length_pos, ne_eq]
  exact ⟨fun h => ⟨h.2, h.1⟩, fun h => ⟨h.2, h.1⟩⟩

/-- C8: with an English source (resp. target) language,
`translate_to_english` and `translate_from_english` are the identity on
the text, in every environment (hence with no external call made). -/
theorem translate_identity_on_english (env : Env) (t : String) :
    translate_to_english env t "en" = Except.ok t ∧
    translate_from_english env t "en" = Except.ok t :=
  ⟨rfl, rfl⟩

/-- C5: for number-only text, `translate_to_english` returns the text
unchanged for every source language and in every environment (hence with
no translation attempted). -/
theorem number_only_translate_to_english_id (env : Env) (t source_lang : String)
    (h : is_number_only_text t = true) :
    translate_to_english env t source_lang = Except.ok t := by
  unfold translate_to_english
  apply pyTry_ok_of
  cases he : source_lang == "en" with
  | true => rfl
  | false => rw [h]; rfl

/-- Witness for C5 at `t = "123-456"`, `source_lang = "fr"`. -/
theorem number_only_translate_to_english_id_witness :
    is_number_only_text "123-456" = true ∧
    translate_to_english envFr "123-456" "fr" = Except.ok "123-456" :=
  ⟨rfl, number_only_translate_to_english_id envFr "123-456" "fr" rfl⟩

/-- C7: `translate_with_google` never raises; it returns the translated
text when the external translation call succeeds and the original text
when the external translation call raises. -/
theorem google_fallback_contract (env : Env) (t s d r : String) :
    (∃ v, translate_with_google env t s d = Except.ok v) ∧
    (env.google t s d = Except.ok r → translate_with_google env t s d = Except.ok r) ∧
    (env.google t s d = Except.error () →
      translate_with_google env t s d = Except.ok t) := by
  refine ⟨translate_with_google_isOk env t s d, fun h => ?_, fun h => ?_⟩
  · exact pyTry_ok_of _ _ _ h
  · exact translate_with_google_of_raise env t s d h

/-- Witness for C7: a succeeding translator (in `envFr`) and a raising
translator (in `envRaise`) at concrete inputs. -/
theorem google_fallback_contract_witness :
    envFr.google "hola" "es" "en" = Except.ok "G" ∧
    translate_with_google envFr "hola" "es" "en" = Except.ok "G" ∧
    envRaise.google "hola" "es" "en" = Except.error () ∧
    translate_with_google envRaise "hola" "es" "en" = Except.ok "hola" :=
  ⟨rfl, (google_fallback_contract envFr "hola" "es" "en" "G").2.1 rfl, rfl,
   (google_fallback_contract envRaise "hola" "es" "en" "G").2.2 rfl⟩

/-- C1: for every input text and every behaviour of the external
dependencies, including dependencies that raise, the public operations
never propagate an exception; and when every dependency (including the
injected accessor) raises, `detect_language_smart` returns `'en'` and the
two translate operations return the original text. -/
theorem public_ops_never_raise (env : Env) (text src tgt : String)
    (sid : Option String) (acc : Option (String → Except Unit String)) :
    (∃ v, detect_language_smart env text sid acc = Except.ok v) ∧
    (∃ v, translate_to_english env text src = Except.ok v) ∧
    (∃ v, translate_from_english env text tgt = Except.ok v) ∧
    (throwsAll env → accRaises acc →
      detect_language_smart env text sid acc = Except.ok "en" ∧
      translate_to_english env text src = Except.ok text ∧
      translate_from_english env text tgt = Except.ok text) := by
  refine ⟨?_, ?_, ?_, ?_⟩
  · unfold detect_language_smart
    exact pyTry_isOk _ _ ⟨"en", rfl⟩
  · unfold translate_to_english
    exact pyTry_isOk _ _ ⟨text, rfl⟩
  · unfold translate_from_english
    exact pyTry_isOk _ _ ⟨text, rfl⟩
  rintro ⟨hdet, hgoo, hldr, hltr⟩ hacc
  refine ⟨?_, ?_, ?_⟩
  · unfold detect_language_smart
    by_cases h3 : (pyStrip text).length < 3
    · rw [if_pos h3]
      cases hc : ctxTruthy sid acc with
      | false => exact pyTry_ok_of _ _ _ rfl
      | true =>
        refine pyTry_error_of _ _ ?_
        rw [callAcc_of_raises sid acc hacc hc]
        rfl
    · rw [if_neg h3]
      cases hn : is_number_only_text text with
      | true =>
        cases hc : ctxTruthy sid acc with
        | false => exact pyTry_ok_of _ _ _ rfl
        | true =>
          refine pyTry_error_of _ _ ?_
          rw [callAcc_of_raises sid acc hacc hc]
          rfl
      | false =>
        apply pyTry_ok_of
        have hd :
            (if env.use_llm then detect_language_with_llm env text
             else fallback_detection env text) = Except.ok "en" := by
          cases hu : env.use_llm with
          | false => simpa using fallback_detection_of_raise env text (hdet text)
          | true =>
            simpa using detect_language_with_llm_of_raise env text (hldr text) (hdet text)
        rw [hd]
        cases hL : env.languages "en" <;> simp [Except.bind, hL]
  · unfold translate_to_english
    apply pyTry_ok_of
    cases he : src == "en" with
    | true => rfl
    | false =>
      cases hn : is_number_only_text text with
      | true => rfl
      | false =>
        cases hc : env.use_llm && (src == "ur") with
        | true => exact translate_with_llm_of_raise env text src "en" (hltr _ _ _) (hgoo _ _ _)
        | false => exact translate_with_google_of_raise env text src "en" (hgoo _ _ _)
  · unfold translate_from_english
    apply pyTry_ok_of
    cases he : tgt == "en" with
    | true => rfl
    | false =>
      cases hc : env.use_llm && (tgt == "ur") with
      | true => exact translate_with_llm_of_raise env text "en" tgt (hltr _ _ _) (hgoo _ _ _)
      | false => exact translate_with_google_of_raise env text "en" tgt (hgoo _ _ _)

/-- Witness for C1 in the all-raising environment `envRaise`, with a
raising accessor, at concrete inputs. -/
theorem public_ops_never_raise_witness :
    detect_language_smart envRaise "hola" (some "u1") (some fun _ => Except.error ()) =
      Except.ok "en" ∧
    translate_to_english envRaise "hola" "es" = Except.ok "hola" ∧
    translate_from_english envRaise "hola" "fr" = Except.ok "hola" :=
  (public_ops_never_raise envRaise "hola" "es" "fr" (some "u1")
      (some fun _ => Except.error ())).2.2.2
    ⟨fun _ => rfl, fun _ _ _ => rfl, fun _ => rfl, fun _ _ _ => rfl⟩
    (fun _ => rfl)

/-- C2 counterexample: with the LLM unavailable (`envFr`),
`detect_language_smart` on the short text "12" returns `'en'` while
`fallback_detection` returns `'fr'`; and with an English source,
`translate_to_english` returns the text while `translate_with_google`
returns the translator's reply.  So the claimed for-every-input
equivalence fails. -/
theorem no_llm_equivalence_counterexample :
    envFr.use_llm = false ∧
    detect_language_smart envFr "12" none none = Except.ok "en" ∧
    fallback_detection envFr "12" = Except.ok "fr" ∧
    translate_to_english envFr "hi" "en" = Except.ok "hi" ∧
    translate_with_google envFr "hi" "en" "en" = Except.ok "G" :=
  ⟨rfl, rfl, rfl, rfl, rfl⟩

/-- C2 amended: when the LLM dependency is unavailable,
`detect_language_smart` agrees with `fallback_detection` on every text
that is neither short (stripped length below 3) nor number-only;
`translate_to_english t src` agrees with `translate_with_google t src
'en'` whenever `src ≠ 'en'` and `t` is not number-only; and
`translate_from_english t tgt` agrees with `translate_with_google t 'en'
tgt` whenever `tgt ≠ 'en'`. -/
theorem no_llm_fallback_equivalence (env : Env) (t src tgt : String)
    (sid : Option String) (acc : Option (String → Except Unit String))
    (hllm : env.use_llm = false) :
    (3 ≤ (pyStrip t).length → is_number_only_text t = false →
      detect_language_smart env t sid acc = fallback_detection env t) ∧
    (src ≠ "en" → is_number_only_text t = false →
      translate_to_english env t src = translate_with_google env t src "en") ∧
    (tgt ≠ "en" →
      translate_from_english env t tgt = translate_with_google env t "en" tgt) := by
  refine ⟨fun h3 hn => ?_, fun hs hn => ?_, fun ht => ?_⟩
  · obtain ⟨v, hv, hv2⟩ := fallback_detection_spec env t
    unfold detect_language_smart
    rw [if_neg (by omega), hn, hllm, hv]
    refine pyTry_ok_of _ _ _ ?_
    show (if (env.languages v || v == "ur") = true then Except.ok v
          else Except.ok "en") = Except.ok v
    rcases hv2 with rfl | hv2
    · cases hL : env.languages "en" <;> simp [hL]
    · simp [hv2]
  · have hs' : (src == "en") = false := beq_eq_false_iff_ne.mpr hs
    obtain ⟨v, hv⟩ := translate_with_google_isOk env t src "en"
    unfold translate_to_english
    rw [hs', hn, hllm, hv]
    exact pyTry_ok_of _ _ _ rfl
  · have ht' : (tgt == "en") = false := beq_eq_false_iff_ne.mpr ht
    obtain ⟨v, hv⟩ := translate_with_google_isOk env t "en" tgt
    unfold translate_from_english
    rw [ht', hllm, hv]
    exact pyTry_ok_of _ _ _ rfl

/-- Witness for the amended C2 at `t = "bonjour"`, `src = tgt = "fr"` in
`envFr`. -/
theorem no_llm_fallback_equivalence_witness :
    envFr.use_llm = false ∧ 3 ≤ (pyStrip "bonjour").length ∧
    is_number_only_text "bonjour" = false ∧
    detect_language_smart envFr "bonjour" none none =
      fallback_detection envFr "bonjour" ∧
    translate_to_english envFr "bonjour" "fr" =
      translate_with_google envFr "bonjour" "fr" "en" ∧
    translate_from_english envFr "bonjour" "fr" =
      translate_with_google envFr "bonjour" "en" "fr" := by
  have h := no_llm_fallback_equivalence envFr "bonjour" "fr" "fr" none none rfl
  exact ⟨rfl, by decide, rfl, h.1 (by decide) rfl, h.2.1 (by decide) rfl,
    h.2.2 (by decide)⟩

/-- C3 counterexample: "a b" has only 2 non-whitespace characters, yet
its stripped length is 3, so `detect_language_smart` runs detection and
(in `envFr`) returns `'fr'`, not `'en'`. -/
theorem short_text_counterexample :
    (("a b").data.filter (fun c => ! c.isWhitespace)).length = 2 ∧
    detect_language_smart envFr "a b" none none = Except.ok "fr" :=
  ⟨rfl, rfl⟩

/-- C3 amended: for every text whose stripped length (Python
`len(t.strip())`) is below 3, with no sender/accessor context,
`detect_language_smart` returns `'en'` in every environment. -/
theorem short_stripped_text_detects_english (env : Env) (t : String)
    (h : (pyStrip t).length < 3) :
    detect_language_smart env t none none = Except.ok "en" := by
  unfold detect_language_smart
  rw [if_pos h]
  exact pyTry_ok_of _ _ _ rfl

/-- Witness for the amended C3 at `t = " hi "`. -/
theorem short_stripped_text_detects_english_witness :
    (pyStrip " hi ").length < 3 ∧
    detect_language_smart envFr " hi " none none = Except.ok "en" :=
  ⟨by decide, short_stripped_text_detects_english envFr " hi " (by decide)⟩

/-- C6: with the LLM configured, `detect_language_with_llm` returns the
trimmed lowercased reply exactly when that code is in the supported
mapping or equals `'ur'`; on any other reply, and on a raising call, it
returns the result of `fallback_detection` on the same text. -/
theorem llm_detect_validates_reply (env : Env) (t r : String)
    (hllm : env.use_llm = true) :
    (env.llm_detect_reply t = Except.ok r →
      detect_language_with_llm env t =
        (if env.languages (pyLower (pyStrip r)) || pyLower (pyStrip r) == "ur" then
          Except.ok (pyLower (pyStrip r))
        else fallback_detection env t)) ∧
    (env.llm_detect_reply t = Except.error () →
      detect_language_with_llm env t = fallback_detection env t) := by
  constructor
  · intro h
    unfold detect_language_with_llm
    rw [hllm, h]
    show pyTry
        (if (env.languages (pyLower (pyStrip r)) || pyLower (pyStrip r) == "ur") = true
         then Except.ok (pyLower (pyStrip r)) else fallback_detection env t)
        (fallback_detection env t) = _
    cases hL : env.languages (pyLower (pyStrip r)) || pyLower (pyStrip r) == "ur" with
    | true => rfl
    | false =>
      obtain ⟨v, hv, _⟩ := fallback_detection_spec env t
      rw [hv]
      rfl
  · intro h
    unfold detect_language_with_llm
    rw [hllm, h]
    rfl

/-- Witness for C6: in `envXX` the LLM reply `' XX '` normalises to
`'xx'`, which is unsupported and not `'ur'`, so the detector falls back
to the statistical result `'fr'`. -/
theorem llm_detect_validates_reply_witness :
    envXX.use_llm = true ∧
    envXX.llm_detect_reply "hello there" = Except.ok " XX " ∧
    envXX.languages (pyLower (pyStrip " XX ")) = false ∧
    detect_language_with_llm envXX "hello there" = Except.ok "fr" ∧
    fallback_detection envXX "hello there" = Except.ok "fr" := by
  refine ⟨rfl, rfl, rfl, ?_, rfl⟩
  have h := (llm_detect_validates_reply envXX "hello there" " XX " rfl).1 rfl
  exact h.trans rfl

/-- C9: for number-only text of stripped length at least 3, with a truthy
sender and an accessor, `detect_language_smart` returns the accessor's
value with no validation, whatever code it is. -/
theorem number_only_uses_last_language (env : Env) (t sid code : String)
    (f : String → Except Unit String)
    (hnum : is_number_only_text t = true) (hlen : 3 ≤ (pyStrip t).length)
    (hsid : sid ≠ "") (hf : f sid = Except.ok code) :
    detect_language_smart env t (some sid) (some f) = Except.ok code := by
  have hc : ctxTruthy (some sid) (some f) = true := by
    simp [ctxTruthy, bne_iff_ne, hsid]
  unfold detect_language_smart
  rw [if_neg (by omega), hnum, hc,
    show callAcc (some sid) (some f) = Except.ok code from hf]
  exact pyTry_ok_of _ _ _ rfl

/-- Witness for C9: the accessor's code `'zz'` is outside the supported
mapping of `envEmpty` and differs from `'ur'`, yet it is returned. -/
theorem number_only_uses_last_language_witness :
    envEmpty.languages "zz" = false ∧ "zz" ≠ "ur" ∧
    detect_language_smart envEmpty "123" (some "u1")
      (some fun _ => Except.ok "zz") = Except.ok "zz" :=
  ⟨rfl, by decide,
   number_only_uses_last_language envEmpty "123" "u1" "zz" (fun _ => Except.ok "zz")
     rfl (by decide) (by decide) rfl⟩

/-- C10: `translate_from_english` applies no number-only skip: for
number-only text and a non-English target it still delegates to the LLM
translator (when configured and the target is `'ur'`) or to the Google
translator, rather than returning the text unchanged. -/
theorem from_english_ignores_number_only (env : Env) (t tgt : String)
    (hnum : is_number_only_text t = true) (htgt : tgt ≠ "en") :
    translate_from_english env t tgt =
      (if env.use_llm && tgt == "ur" then translate_with_llm env t "en" tgt
       else translate_with_google env t "en" tgt) := by
  have ht' : (tgt == "en") = false := beq_eq_false_iff_ne.mpr htgt
  unfold translate_from_english
  rw [ht']
  cases hc : env.use_llm && tgt == "ur" with
  | true =>
    obtain ⟨v, hv⟩ := translate_with_llm_isOk env t "en" tgt
    rw [hv]
    exact pyTry_ok_of _ _ _ rfl
  | false =>
    obtain ⟨v, hv⟩ := translate_with_google_isOk env t "en" tgt
    rw [hv]
    exact pyTry_ok_of _ _ _ rfl

/-- Witness for C10: in `envFr` the number-only text "123" is sent to the
Google translator for target `'fr'` and comes back as `'G'`, not
unchanged. -/
theorem from_english_ignores_number_only_witness :
    is_number_only_text "123" = true ∧
    translate_from_english envFr "123" "fr" = Except.ok "G" ∧
    Except.ok "G" ≠ (Except.ok "123" : Except Unit String) := by
  refine ⟨rfl, ?_, fun h => absurd (Except.ok.inj h) (by decide)⟩
  have h := from_english_ignores_number_only envFr "123" "fr" rfl (by decide)
  exact h.trans rfl
